import Mathlib

set_option linter.unusedVariables false

/-!
Verification development for the DeedSure single-page client.

The development shallowly embeds the client-side session/authentication
lifecycle, the registration retry flow, the report-status polling loop of
the report-detail view, and the sequential document-upload handler.
Stateful browser code (localStorage, axios default headers, React state,
timers) is modelled as explicit state passing; network calls are modelled
by passing the server's response (or failure) as an explicit argument.
-/

/-- Identity of the authenticated user, as in the `User` interface of
both auth-context variants. -/
structure User where
  id : String
  email : String
  fullName : Option String := none
  firmName : Option String := none
deriving DecidableEq, Repr

/-- Successful body of `POST /auth/login` and `POST /auth/login-json`:
`{ access_token, user }`. -/
structure LoginResp where
  access_token : String
  user : User
deriving DecidableEq, Repr

/-- Error value observed by a JS `catch` block.  `message` is the
`Error.message` field; `respDetail` and `respMessage` model
`error.response?.data?.detail` and `error.response?.data?.message`
(both `none` when the error carries no HTTP response, e.g. a plain
`new Error(...)`). -/
structure JsError where
  message : String
  respDetail : Option String := none
  respMessage : Option String := none
deriving DecidableEq, Repr

/-- Client-side mutable state relevant to the credential lifecycle:
the persisted `localStorage` entry keyed `token`, the axios
`defaults.headers.common.Authorization` entry, the React `user` and
`isLoading` states of the auth context, and the current route. -/
structure ClientState where
  storage : Option String
  defaultsAuth : Option String
  user : Option User
  isLoading : Bool
  route : String
deriving DecidableEq, Repr

/-- State at application start: `user` is `null`, `isLoading` is `true`,
no axios default Authorization header is set, and `localStorage` may or
may not hold a persisted token. -/
def initState (tok : Option String) : ClientState :=
  { storage := tok, defaultsAuth := none, user := none, isLoading := true
    route := "/" }

/-- Authorization header of an outgoing request, as built by
`api.interceptors.request.use` in `lib/api.ts`: the interceptor reads
`localStorage.getItem('token')` when the call is constructed and, if a
token is present, overwrites the header with `Bearer <token>`; otherwise
the request keeps whatever the axios defaults provide. -/
def requestAuthorization (s : ClientState) : Option String :=
  match s.storage with
  | some t => some ("Bearer " ++ t)
  | none => s.defaultsAuth

namespace AuthSimple

/-- Startup session restore: `checkAuth` in
`frontend/src/context/AuthContext.tsx` (lines 29-44).  If a token is
stored it calls `GET /users/me`; on success it sets `user`, on failure
it removes the stored token; in every case it ends by
`setIsLoading(false)`. -/
def checkAuth (s : ClientState) (resp : Except Unit User) : ClientState :=
  match s.storage with
  | none => { s with isLoading := false }
  | some _ =>
    match resp with
    | .ok u => { s with user := some u, isLoading := false }
    | .error _ => { s with storage := none, isLoading := false }

/-- The `login` operation of `frontend/src/context/AuthContext.tsx`
(lines 46-60).  It posts `{ username, password }` to `/auth/login`; on
success it stores `access_token`, sets `user` and navigates to `/`; on
any failure it throws `Error('Invalid email or password')`, leaving the
state untouched.  The second component is the thrown error message, if
any. -/
def login (s : ClientState) (email password : String)
    (resp : Except Unit LoginResp) : ClientState × Option String :=
  match resp with
  | .ok r =>
    ({ s with storage := some r.access_token, user := some r.user
              route := "/" }, none)
  | .error _ => (s, some "Invalid email or password")

/-- The `logout` operation of `frontend/src/context/AuthContext.tsx`
(lines 78-82): it removes the stored token, clears `user` and navigates
to `/login`. -/
def logout (s : ClientState) : ClientState :=
  { s with storage := none, user := none, route := "/login" }

end AuthSimple

namespace AuthRetry

/-- The `login` operation of the second auth-context variant
(`src/unnamed/part_000`, lines 172-204).  It posts `{ email, password }`
to `/auth/login-json`; on success it stores the token, additionally sets
`api.defaults.headers.common.Authorization` to `Bearer <token>`, sets
`user` and navigates to `/`; on failure it throws
`Error(error.response?.data?.message || 'Invalid email or password')`. -/
def login (s : ClientState) (email password : String)
    (resp : Except JsError LoginResp) : ClientState × Option String :=
  match resp with
  | .ok r =>
    ({ s with storage := some r.access_token
              defaultsAuth := some ("Bearer " ++ r.access_token)
              user := some r.user, route := "/" }, none)
  | .error e => (s, some (e.respMessage.getD "Invalid email or password"))

/-- The `logout` operation of `src/unnamed/part_000` (lines 296-304):
it removes the stored token, deletes the axios default Authorization
header, clears `user` and navigates to `/login`. -/
def logout (s : ClientState) : ClientState :=
  { s with storage := none, defaultsAuth := none, user := none
           route := "/login" }

/-- Startup session restore of `src/unnamed/part_000` (lines 154-170);
the code is identical to the `AuthSimple` variant apart from logging. -/
def checkAuth (s : ClientState) (resp : Except Unit User) : ClientState :=
  match s.storage with
  | none => { s with isLoading := false }
  | some _ =>
    match resp with
    | .ok u => { s with user := some u, isLoading := false }
    | .error _ => { s with storage := none, isLoading := false }

/-- Network calls issued by the `register` operation. -/
inductive Call where
  | registerCall
  | loginCall
  | profileCall
deriving DecidableEq, Repr

/-- Delay (in ms) of the `setTimeout(resolve, 2000)` waits in
`src/unnamed/part_000`: the token-propagation wait before the first
profile attempt (line 234) and the wait before each retry (line 265). -/
def retryDelay : Nat := 2000

/-- The `maxRetries` constant of `src/unnamed/part_000` line 240. -/
def maxRetries : Nat := 3

/-- The generic fallback message of the outer catch of `register`
(line 290). -/
def registrationFailedMsg : String :=
  "Registration failed. Please try again later."

/-- Message thrown by the inner catch when login-after-registration
fails (line 278). -/
def accountCreatedMsg : String := "Account created but login failed"

/-- Message computed by the outer catch of `register` (lines 288-292):
`error.response?.data?.detail || error.response?.data?.message ||
'Registration failed. Please try again later.'`. -/
def outerCatchMsg (e : JsError) : String :=
  ((e.respDetail).orElse (fun _ => e.respMessage)).getD registrationFailedMsg

/-- The recursive `createProfile` helper of `register`
(`src/unnamed/part_000`, lines 239-274).  `profileOk k` is whether the
`POST /users` call made with `retryCount = k` succeeds; `t` is the time
the current attempt is issued.  Returns the list of times at which
profile-creation calls are issued.  On failure with
`retryCount < maxRetries` it increments `retryCount`, waits
`retryDelay` and recurses; once the budget is exhausted it logs and
returns normally ("Continuing despite profile creation issues"), so
`createProfile` never throws. -/
def createProfile (profileOk : Nat → Bool) (retryCount : Nat) (t : Nat) :
    List Nat :=
  if profileOk retryCount then [t]
  else if h : retryCount < maxRetries then
    t :: createProfile profileOk (retryCount + 1) (t + retryDelay)
  else [t]
termination_by maxRetries - retryCount
decreasing_by omega

/-- Outcome of one run of the `register` operation of
`src/unnamed/part_000` (lines 206-294). -/
structure RegisterRun where
  /-- Client state when `register` settles. -/
  finalState : ClientState
  /-- Issued network calls, with the time (ms after the register call)
  each was issued. -/
  calls : List (Nat × Call)
  /-- `Except.ok` when the returned promise resolves, otherwise the
  message of the thrown error. -/
  result : Except String Unit
deriving Repr

/-- The `register` operation of `src/unnamed/part_000` (lines 206-294).
Step 1 posts `/auth/register`; on failure the outer catch rethrows
`outerCatchMsg`.  Step 2 calls `login`; on failure the inner catch
throws `Error(accountCreatedMsg)` - a plain `Error` with no `response` -
which the outer catch then replaces via `outerCatchMsg`.  Step 3 waits
`retryDelay` for token propagation; step 4 runs `createProfile`, which
never throws, so `register` then resolves. -/
def register (s : ClientState) (email password fullName firmName : String)
    (regResp : Except JsError Unit) (loginResp : Except JsError LoginResp)
    (profileOk : Nat → Bool) : RegisterRun :=
  match regResp with
  | .error e =>
    { finalState := s, calls := [(0, .registerCall)]
      result := .error (outerCatchMsg e) }
  | .ok _ =>
    match login s email password loginResp with
    | (_, some _) =>
      -- the inner catch throws a plain Error carrying `accountCreatedMsg`;
      -- the outer catch receives it and computes its own message from the
      -- (absent) response fields
      { finalState := s, calls := [(0, .registerCall), (0, .loginCall)]
        result := .error (outerCatchMsg
          { message := accountCreatedMsg, respDetail := none
            respMessage := none }) }
    | (s1, none) =>
      { finalState := s1
        calls := (0, Call.registerCall) :: (0, Call.loginCall) ::
          (createProfile profileOk 0 retryDelay).map (fun t => (t, .profileCall))
        result := .ok () }

end AuthRetry

namespace DocumentUpload

/-- Observable actions of the `handleUpload` function of
`frontend/src/pages/documents/DocumentUpload.tsx` (lines 44-108), in
the order they are performed.  `entryProgress i` is the `setFiles` call
that sets entry `i` to 50% progress, `uploadCall i` is the
`api.post('/documents/upload', ...)` call for file `i`, and
`entrySuccess i` / `entryError i` are the `setFiles` calls that move
entry `i` to its terminal `success` / `error` status. -/
inductive UpEvent where
  | entryProgress (i : Nat)
  | uploadCall (i : Nat)
  | entrySuccess (i : Nat)
  | entryError (i : Nat)
deriving DecidableEq, Repr

/-- One iteration of the `for` loop of `handleUpload` for file `i`:
mark progress, issue the upload call, then mark the entry `success` on
a resolved call and `error` on a rejected one. -/
def uploadStep (ok : Nat → Bool) (i : Nat) : List UpEvent :=
  [.entryProgress i, .uploadCall i,
   if ok i then .entrySuccess i else .entryError i]

/-- Event trace of one invocation of `handleUpload` on `n` accepted
files: the `for` loop awaits each upload before starting the next, so
the trace is the concatenation of the per-file iterations in order. -/
def handleUpload (ok : Nat → Bool) (n : Nat) : List UpEvent :=
  ((List.range n).map (uploadStep ok)).flatten

/-- Terminal-state event recorded for file `i`. -/
def terminalEvent (ok : Nat → Bool) (i : Nat) : UpEvent :=
  if ok i then .entrySuccess i else .entryError i

theorem handleUpload_length (ok : Nat → Bool) (n : Nat) :
    (handleUpload ok n).length = 3 * n := by
  induction n with
  | zero => rfl
  | succ m ih =>
    simp only [handleUpload, List.range_succ, List.map_append, List.flatten_append]
      at ih ⊢
    simp [ih, uploadStep]
    ring

theorem handleUpload_get (ok : Nat → Bool) (n q r : Nat)
    (hq : q < n) (hr : r < 3) :
    (handleUpload ok n)[3 * q + r]? = (uploadStep ok q)[r]? := by
  induction n with
  | zero => omega
  | succ m ih =>
    have hsplit : handleUpload ok (m + 1) = handleUpload ok m ++ uploadStep ok m := by
      simp [handleUpload, List.range_succ]
    rcases Nat.lt_succ_iff_lt_or_eq.mp hq with h | h
    · have hlen : 3 * q + r < (handleUpload ok m).length := by
        rw [handleUpload_length]; omega
      rw [hsplit, List.getElem?_append_left hlen, ih h]
    · subst h
      rw [hsplit, List.getElem?_append_right (by rw [handleUpload_length]; omega)]
      congr 1
      rw [handleUpload_length]
      omega

theorem handleUpload_uploadCall_unique (ok : Nat → Bool) (n j k : Nat)
    (hk : (handleUpload ok n)[k]? = some (UpEvent.uploadCall j)) :
    k = 3 * j + 1 := by
  have hlt : k < (handleUpload ok n).length := by
    by_contra hge
    rw [List.getElem?_eq_none (Nat.le_of_not_lt hge)] at hk
    exact Option.noConfusion hk
  rw [handleUpload_length] at hlt
  have hq : k / 3 < n := by omega
  have hr : k % 3 < 3 := Nat.mod_lt _ (by omega)
  have hdec : k = 3 * (k / 3) + k % 3 := by omega
  rw [hdec, handleUpload_get ok n _ _ hq hr] at hk
  rcases hr3 : k % 3 with _ | _ | r
  · rw [hr3] at hk
    simp [uploadStep] at hk
  · rw [hr3] at hk
    simp only [uploadStep] at hk
    have : k / 3 = j := by
      injection hk with h
      cases h
      rfl
    omega
  · have hr2 : r = 0 := by omega
    rw [hr3, hr2] at hk
    simp only [uploadStep] at hk
    rcases hok : ok (k / 3) with _ | _ <;> rw [hok] at hk <;> simp at hk

end DocumentUpload

namespace ReportView

/-!
Model of the report-detail view
(`frontend/src/pages/reports/ReportView.tsx`, lines 24-62).

The `useEffect` has dependency array `[id, pollingInterval]`.  Its body
defines an async `fetchReport` closure over the render-scope value of
`pollingInterval`, calls it once, and returns a cleanup closure over the
same captured value.  `fetchReport` fetches `/reports/Rid`; on a
`processing` status with a falsy captured `pollingInterval` it calls
`window.setInterval(fetchReport, 5000)` and stores the interval id with
`setPollingInterval`; on a non-`processing` status or a fetch failure
with a truthy captured `pollingInterval` it clears that interval and
stores `null`.  A `setPollingInterval` to a different value re-renders,
runs the previous effect's cleanup, and re-runs the effect body - which
fetches again immediately.  Interval callbacks keep the closure that
created them, whose captured `pollingInterval` is the value at that
render (always `null`, since creation is guarded by
`!pollingInterval`). -/

/-- One scheduled `setInterval` timer: its id, the time of its next
tick (ticks repeat every 5 time units), and the `pollingInterval` value
captured by the `fetchReport` closure it invokes. -/
structure Interval where
  id : Nat
  next : Nat
  capturedP : Option Nat
deriving DecidableEq, Repr

/-- State of the mounted view: the React `pollingInterval` state, the
`pollingInterval` value captured by the most recent effect run (read by
its cleanup closure), the set of scheduled timers, a fresh-id counter
for `setInterval`, and the times at which fetches were issued. -/
structure ViewState where
  stateP : Option Nat
  lastCaptured : Option Nat
  live : List Interval
  nextId : Nat
  fetchLog : List Nat
deriving DecidableEq, Repr

/-- Result of one `GET /reports/Rid` call: a report body with the given
`status` string, or a rejected promise. -/
inductive FetchResp where
  | status (s : String)
  | failure
deriving DecidableEq, Repr

/-- The `response.data.status === 'processing'` test (line 31); a
failed fetch takes the `catch` branch, which clears the timer exactly
like a non-`processing` status does (lines 43-49). -/
def isProcessing : FetchResp → Bool
  | .status s => s = "processing"
  | .failure => false

/-- Cleanup closure of the most recent effect run (lines 57-61):
`if (pollingInterval) clearInterval(pollingInterval)` with
`pollingInterval` the value captured by that run. -/
def effectCleanup (v : ViewState) : ViewState :=
  match v.lastCaptured with
  | some i => { v with live := v.live.filter (fun iv => iv.id ≠ i) }
  | none => v

/-- One invocation of a `fetchReport` closure whose captured
`pollingInterval` is `p`, at time `t`; the pending server responses are
consumed front-first (an empty list means the horizon of the analysed
trace is past, and nothing further is observed).  A `setPollingInterval`
to a value different from the current state re-renders and re-runs the
effect: previous cleanup, then the new body's `fetchReport` - inlined
here as the recursive call. -/
def fetchReport (p : Option Nat) (t : Nat) (v : ViewState) :
    List FetchResp → ViewState × List FetchResp
  | [] => (v, [])
  | r :: rest =>
    let v1 := { v with fetchLog := v.fetchLog ++ [t] }
    if isProcessing r then
      match p with
      | none =>
        -- `if (!pollingInterval)`: create the interval, store its id
        let i := v1.nextId
        let v2 := { v1 with
          live := v1.live ++ [({ id := i, next := t + 5, capturedP := none } : Interval)]
          nextId := v1.nextId + 1 }
        if v2.stateP = some i then ({ v2 with stateP := some i }, rest)
        else
          let v3 := effectCleanup { v2 with stateP := some i }
          fetchReport (some i) t { v3 with lastCaptured := some i } rest
      | some _ => (v1, rest)
    else
      match p with
      | some j =>
        -- `clearInterval(pollingInterval); setPollingInterval(null)`
        let v2 := { v1 with live := v1.live.filter (fun iv => iv.id ≠ j) }
        if v2.stateP = none then ({ v2 with stateP := none }, rest)
        else
          let v3 := effectCleanup { v2 with stateP := none }
          fetchReport none t { v3 with lastCaptured := none } rest
      | none => (v1, rest)

/-- Mounting the view: the first effect run calls `fetchReport` with
captured `pollingInterval = null` at time 0. -/
def mountView (rs : List FetchResp) : ViewState × List FetchResp :=
  fetchReport none 0
    { stateP := none, lastCaptured := none, live := [], nextId := 0
      fetchLog := [] } rs

/-- Firing of the timer with id `i` at time `t`, provided it is still
scheduled and due: it is rescheduled 5 units later and its callback (a
`fetchReport` closure) runs. -/
def fireInterval (t : Nat) (acc : ViewState × List FetchResp) (i : Nat) :
    ViewState × List FetchResp :=
  match acc.1.live.find? (fun iv => iv.id == i && iv.next == t) with
  | none => acc
  | some iv =>
    let v2 := { acc.1 with
      live := acc.1.live.map (fun j => if j.id = i then { j with next := t + 5 } else j) }
    fetchReport iv.capturedP t v2 acc.2

/-- Advancing the clock to time `t`: every timer due at `t` fires, in
schedule order; timers cleared by an earlier callback in the same
instant do not fire, and timers created during the instant are due 5
units later. -/
def stepTime (t : Nat) (v : ViewState) (rs : List FetchResp) :
    ViewState × List FetchResp :=
  ((v.live.filter (fun iv => iv.next == t)).map (fun iv => iv.id)).foldl
    (fireInterval t) (v, rs)

/-- Advancing the clock through times `t0, t0 + 1, ...`, `n` times. -/
def runSteps : Nat → Nat → ViewState × List FetchResp → ViewState × List FetchResp
  | _, 0, acc => acc
  | t0, n + 1, acc => runSteps (t0 + 1) n (stepTime t0 acc.1 acc.2)

/-- Mounting the view at time 0 and letting it run until time
`horizon`. -/
def runView (rs : List FetchResp) (horizon : Nat) :
    ViewState × List FetchResp :=
  runSteps 1 horizon (mountView rs)

/-- Unmounting the view runs the cleanup of the most recent effect run
(lines 57-61). -/
def unmountView (v : ViewState) : ViewState := effectCleanup v

/-- State invariant at quiescent instants: the React state and the last
effect run's captured value agree, every scheduled timer was created
under the `!pollingInterval` guard (callback captured `null`), carries
the id currently tracked by the state, and has an id below the fresh-id
counter. -/
def Inv (v : ViewState) : Prop :=
  v.stateP = v.lastCaptured ∧
  (∀ iv ∈ v.live,
    iv.capturedP = none ∧ some iv.id = v.lastCaptured ∧ iv.id < v.nextId) ∧
  (∀ i, v.lastCaptured = some i → i < v.nextId)

theorem fetchReport_inv (rs : List FetchResp) (p : Option Nat) (t : Nat)
    (v : ViewState) (hv : Inv v) (hp : p = none ∨ p = v.stateP) :
    Inv (fetchReport p t v rs).1 := by
  induction rs generalizing p t v with
  | nil => exact hv
  | cons r rest ih =>
    obtain ⟨sP, lC, lv, nI, fL⟩ := v
    obtain ⟨hsl, hlive, hbound⟩ := hv
    simp only at hsl hlive hbound hp
    subst hsl
    simp only [fetchReport]
    rcases hproc : isProcessing r with _ | _
    · -- non-processing / failure branch
      simp only [Bool.false_eq_true, if_false]
      rcases p with _ | j
      · exact ⟨rfl, hlive, hbound⟩
      · -- p = some j forces the current state to be some j as well
        have hps : sP = some j := by
          rcases hp with h | h
          · exact absurd h (by simp)
          · exact h.symm
        subst hps
        simp only [effectCleanup, reduceCtorEq, if_false]
        apply ih
        · refine ⟨rfl, ?_, ?_⟩
          · intro iv hiv
            simp only [List.mem_filter, decide_eq_true_eq] at hiv
            obtain ⟨⟨hmem, hne1⟩, hne2⟩ := hiv
            have hprops := hlive iv hmem
            exact absurd (Option.some.inj hprops.2.1.symm).symm hne1
          · intro i hi
            exact absurd hi (by simp)
        · left; rfl
    · -- processing branch
      simp only [if_true]
      rcases p with _ | j
      · -- captured value is null: create the interval and store its id
        have hfresh : ¬ (sP = some nI) := fun h => absurd (hbound _ h) (by omega)
        simp only [hfresh, if_false]
        rcases sP with _ | c
        · -- no previous capture: the old timer set is empty
          have hnil : lv = [] := by
            rcases lv with _ | ⟨iv, lv2⟩
            · rfl
            · exact absurd (hlive iv (by simp)).2.1 (by simp)
          subst hnil
          simp only [effectCleanup]
          apply ih
          · refine ⟨rfl, ?_, ?_⟩
            · intro iv hiv
              simp only [List.nil_append, List.mem_singleton] at hiv
              subst hiv
              exact ⟨rfl, rfl, Nat.lt_succ_self nI⟩
            · intro i hi
              injection hi with hi
              subst hi
              exact Nat.lt_succ_self nI
          · right; rfl
        · -- previous capture some c: the cleanup removes the old timers
          simp only [effectCleanup]
          apply ih
          · refine ⟨rfl, ?_, ?_⟩
            · intro iv hiv
              simp only [List.mem_filter, List.mem_append,
                List.mem_singleton, decide_eq_true_eq] at hiv
              obtain ⟨hmem | hnew, hne⟩ := hiv
              · have hprops := hlive iv hmem
                exact absurd (Option.some.inj hprops.2.1.symm).symm hne
              · subst hnew
                exact ⟨rfl, rfl, Nat.lt_succ_self nI⟩
            · intro i hi
              injection hi with hi
              subst hi
              exact Nat.lt_succ_self nI
          · right; rfl
      · exact ⟨rfl, hlive, hbound⟩

theorem fireInterval_inv (t : Nat) (acc : ViewState × List FetchResp) (i : Nat)
    (hv : Inv acc.1) : Inv (fireInterval t acc i).1 := by
  obtain ⟨h1, h2, h3⟩ := hv
  simp only [fireInterval]
  rcases hfind : acc.1.live.find? (fun iv => iv.id == i && iv.next == t) with _ | iv
  · simp only [hfind]
    exact ⟨h1, h2, h3⟩
  · simp only [hfind]
    have hmem := List.mem_of_find?_eq_some hfind
    have hcap := (h2 iv hmem).1
    rw [hcap]
    apply fetchReport_inv
    · refine ⟨h1, ?_, h3⟩
      intro iv2 hiv2
      simp only [List.mem_map] at hiv2
      obtain ⟨jv, hjm, hje⟩ := hiv2
      have hj := h2 jv hjm
      by_cases hid : jv.id = i
      · simp only [hid, if_true] at hje
        subst hje
        exact ⟨hj.1, hid ▸ hj.2.1, hid ▸ hj.2.2⟩
      · simp only [hid, if_false] at hje
        subst hje
        exact hj
    · left; rfl

theorem foldFire_inv (t : Nat) (ids : List Nat)
    (acc : ViewState × List FetchResp) (hv : Inv acc.1) :
    Inv (ids.foldl (fireInterval t) acc).1 := by
  induction ids generalizing acc with
  | nil => exact hv
  | cons i ids ih => exact ih _ (fireInterval_inv t acc i hv)

theorem stepTime_inv (t : Nat) (v : ViewState) (rs : List FetchResp)
    (hv : Inv v) : Inv (stepTime t v rs).1 :=
  foldFire_inv t _ (v, rs) hv

theorem runSteps_inv (t0 n : Nat) (acc : ViewState × List FetchResp)
    (hv : Inv acc.1) : Inv (runSteps t0 n acc).1 := by
  induction n generalizing t0 acc with
  | zero => exact hv
  | succ m ih => exact ih (t0 + 1) _ (stepTime_inv t0 acc.1 acc.2 hv)

theorem mountView_inv (rs : List FetchResp) : Inv (mountView rs).1 := by
  apply fetchReport_inv
  · refine ⟨rfl, ?_, ?_⟩
    · intro iv hiv
      exact absurd hiv (List.not_mem_nil iv)
    · intro i hi
      exact absurd hi (by simp)
  · left; rfl

theorem runView_inv (rs : List FetchResp) (horizon : Nat) :
    Inv (runView rs horizon).1 :=
  runSteps_inv 1 horizon _ (mountView_inv rs)

theorem unmountView_live (v : ViewState) (hv : Inv v) :
    (unmountView v).live = [] := by
  obtain ⟨h1, h2, h3⟩ := hv
  rcases hc : v.lastCaptured with _ | c
  · simp only [unmountView, effectCleanup, hc]
    rw [List.eq_nil_iff_forall_not_mem]
    intro iv hiv
    have h := (h2 iv hiv).2.1
    rw [hc] at h
    exact absurd h (by simp)
  · simp only [unmountView, effectCleanup, hc]
    rw [List.filter_eq_nil_iff]
    intro iv hiv
    have h := (h2 iv hiv).2.1
    rw [hc] at h
    simpa using Option.some.inj h

theorem unmountView_fetchLog (v : ViewState) :
    (unmountView v).fetchLog = v.fetchLog := by
  rcases hc : v.lastCaptured with _ | c <;>
    simp [unmountView, effectCleanup, hc]

theorem stepTime_live_nil (t : Nat) (v : ViewState) (rs : List FetchResp)
    (h : v.live = []) : stepTime t v rs = (v, rs) := by
  simp only [stepTime, h, List.filter_nil, List.map_nil, List.foldl_nil]

theorem runSteps_live_nil (t0 n : Nat) (v : ViewState) (rs : List FetchResp)
    (h : v.live = []) : runSteps t0 n (v, rs) = (v, rs) := by
  induction n generalizing t0 with
  | zero => rfl
  | succ m ih =>
    simp only [runSteps]
    rw [stepTime_live_nil t0 v rs h]
    exact ih (t0 + 1)

end ReportView

namespace AuthRetry

/-- Times of the profile-creation calls of a `register` run. -/
def profileCallTimes (run : RegisterRun) : List Nat :=
  (run.calls.filter (fun c => c.2 == Call.profileCall)).map (fun c => c.1)

/-- Number of calls of the given kind issued by a `register` run. -/
def callCount (run : RegisterRun) (c : Call) : Nat :=
  run.calls.countP (fun e => e.2 == c)

end AuthRetry

/-- Client states reachable under the `src/unnamed/part_000` session
operations: application start with an arbitrary persisted token, the
one-shot startup `checkAuth`, and any sequence of `login`, `register`
and `logout` operations. -/
inductive Reachable : ClientState → Prop where
  | init (tok : Option String) : Reachable (initState tok)
  | check (tok : Option String) (resp : Except Unit User) :
      Reachable (AuthRetry.checkAuth (initState tok) resp)
  | loginStep {s : ClientState} (email password : String)
      (resp : Except JsError LoginResp) :
      Reachable s → Reachable (AuthRetry.login s email password resp).1
  | registerStep {s : ClientState} (email password fullName firmName : String)
      (regResp : Except JsError Unit) (loginResp : Except JsError LoginResp)
      (profileOk : Nat → Bool) :
      Reachable s →
      Reachable (AuthRetry.register s email password fullName firmName regResp
        loginResp profileOk).finalState
  | logoutStep {s : ClientState} :
      Reachable s → Reachable (AuthRetry.logout s)

/-- C6: an API call constructed after a successful login with stored
credential `t` carries header `Authorization: Bearer t`; an API call
constructed after `logout` (storage and the default header both
cleared) carries no Authorization header. -/
theorem claim_C6_bearer_after_login_none_after_logout
    (s : ClientState) (email password : String) (r : LoginResp) :
    requestAuthorization (AuthRetry.login s email password (.ok r)).1
      = some ("Bearer " ++ r.access_token) ∧
    requestAuthorization (AuthRetry.logout s) = none :=
  ⟨rfl, rfl⟩

/-- C7: when storage holds a credential that `GET /users/me` rejects,
the startup restore ends with identity absent, the credential removed
from storage and the loading flag false; and the loading flag is
cleared on every outcome of the restore. -/
theorem claim_C7_failed_restore_clears_credential (t : String)
    (s0 : ClientState) (resp0 : Except Unit User) :
    ((AuthSimple.checkAuth (initState (some t)) (.error ())).user = none ∧
     (AuthSimple.checkAuth (initState (some t)) (.error ())).storage = none ∧
     (AuthSimple.checkAuth (initState (some t)) (.error ())).isLoading = false) ∧
    (AuthSimple.checkAuth s0 resp0).isLoading = false := by
  refine ⟨⟨rfl, rfl, rfl⟩, ?_⟩
  rcases hs : s0.storage with _ | t0 <;> rcases resp0 with _ | u <;>
    simp [AuthSimple.checkAuth, hs]

/-- C8: on a successful `{ access_token, user }` login response the
stored credential equals `access_token`, the session identity equals
the returned user and navigation goes to the home route with no error
raised; on failure `login` raises the invalid-credentials error and
returns the client state unchanged. -/
theorem claim_C8_login_success_and_failure (s : ClientState)
    (email password : String) (r : LoginResp) :
    ((AuthSimple.login s email password (.ok r)).1.storage
        = some r.access_token ∧
     (AuthSimple.login s email password (.ok r)).1.user = some r.user ∧
     (AuthSimple.login s email password (.ok r)).1.route = "/" ∧
     (AuthSimple.login s email password (.ok r)).2 = none) ∧
    AuthSimple.login s email password (.error ())
      = (s, some "Invalid email or password") :=
  ⟨⟨rfl, rfl, rfl, rfl⟩, rfl⟩

/-- C5 counterexample: the claim that no component keeps a copy of the
credential outside storage is false - after a successful login the
`src/unnamed/part_000` auth context caches the credential in the axios
default Authorization header (a reachable state whose `defaultsAuth`
is not empty). -/
theorem claim_C5_cached_copy_counterexample :
    Reachable (AuthRetry.login (initState none) "a@b.com" "secret"
      (.ok { access_token := "tok123"
             user := { id := "u1", email := "a@b.com" } })).1 ∧
    (AuthRetry.login (initState none) "a@b.com" "secret"
      (.ok { access_token := "tok123"
             user := { id := "u1", email := "a@b.com" } })).1.defaultsAuth
      = some "Bearer tok123" :=
  ⟨Reachable.loginStep "a@b.com" "secret" _ (Reachable.init none), rfl⟩

/-- C5 amended: the interceptor reads the credential from storage when
each call is constructed, and storage takes precedence whenever it
holds a token; however the session store additionally caches the
credential in the API client's default Authorization header, which in
every reachable state is either absent or exactly the bearer form of
the currently stored token. -/
theorem claim_C5_storage_read_per_call_with_cached_header
    (s : ClientState) (t : String) (hs : Reachable s) :
    (s.storage = some t → requestAuthorization s = some ("Bearer " ++ t)) ∧
    (s.defaultsAuth = none ∨
      ∃ u, s.storage = some u ∧ s.defaultsAuth = some ("Bearer " ++ u)) := by
  constructor
  · intro h
    simp [requestAuthorization, h]
  · clear t
    induction hs with
    | init tok => left; rfl
    | check tok resp =>
      rcases tok with _ | t0 <;> rcases resp with _ | u <;>
        simp [AuthRetry.checkAuth, initState]
    | loginStep email password resp hr ih =>
      rcases resp with e | r
      · exact ih
      · right
        exact ⟨r.access_token, rfl, rfl⟩
    | registerStep email password fullName firmName regResp loginResp pOk hr ih =>
      rcases regResp with e | u
      · exact ih
      · rcases loginResp with e | r
        · exact ih
        · right
          exact ⟨r.access_token, rfl, rfl⟩
    | logoutStep hr ih =>
      left; rfl

/-- C1: when the profile-creation call fails on its first two attempts
and succeeds on the third, `register` resolves successfully, exactly
three profile-creation calls are issued - at 2000, 4000 and 6000 ms,
so each consecutive pair is separated by the fixed 2000 ms delay - and
the outer registration and login calls are each issued exactly once. -/
theorem claim_C1_register_retries_profile_three_times
    (s : ClientState) (email password fullName firmName : String)
    (r : LoginResp) (profileOk : Nat → Bool)
    (h0 : profileOk 0 = false) (h1 : profileOk 1 = false)
    (h2 : profileOk 2 = true) :
    (AuthRetry.register s email password fullName firmName (.ok ()) (.ok r)
        profileOk).result = .ok () ∧
    AuthRetry.profileCallTimes (AuthRetry.register s email password fullName
        firmName (.ok ()) (.ok r) profileOk) = [2000, 4000, 6000] ∧
    AuthRetry.callCount (AuthRetry.register s email password fullName firmName
        (.ok ()) (.ok r) profileOk) .registerCall = 1 ∧
    AuthRetry.callCount (AuthRetry.register s email password fullName firmName
        (.ok ()) (.ok r) profileOk) .loginCall = 1 := by
  refine ⟨rfl, ?_, ?_, ?_⟩ <;>
    simp [AuthRetry.register, AuthRetry.login, AuthRetry.profileCallTimes,
      AuthRetry.callCount, AuthRetry.createProfile, h0, h1, h2,
      AuthRetry.maxRetries, AuthRetry.retryDelay]

/-- C1 witness: the theorem instantiated with a profile call that fails
twice and then succeeds. -/
theorem claim_C1_register_retries_profile_three_times_witness :
    (AuthRetry.register (initState none) "a@b.com" "secret" "Ada" "Firm"
        (.ok ()) (.ok { access_token := "tok123"
                        user := { id := "u1", email := "a@b.com" } })
        (fun k => k == 2)).result = .ok () ∧
    AuthRetry.profileCallTimes (AuthRetry.register (initState none) "a@b.com"
        "secret" "Ada" "Firm" (.ok ())
        (.ok { access_token := "tok123"
               user := { id := "u1", email := "a@b.com" } })
        (fun k => k == 2)) = [2000, 4000, 6000] ∧
    AuthRetry.callCount (AuthRetry.register (initState none) "a@b.com" "secret"
        "Ada" "Firm" (.ok ())
        (.ok { access_token := "tok123"
               user := { id := "u1", email := "a@b.com" } })
        (fun k => k == 2)) .registerCall = 1 ∧
    AuthRetry.callCount (AuthRetry.register (initState none) "a@b.com" "secret"
        "Ada" "Firm" (.ok ())
        (.ok { access_token := "tok123"
               user := { id := "u1", email := "a@b.com" } })
        (fun k => k == 2)) .loginCall = 1 :=
  claim_C1_register_retries_profile_three_times (initState none) "a@b.com"
    "secret" "Ada" "Firm"
    { access_token := "tok123", user := { id := "u1", email := "a@b.com" } }
    (fun k => k == 2) (by decide) (by decide) (by decide)

/-- C2 counterexample: the claim that `register` reports a distinct
message per failing stage is false on the code.  When login after
registration fails, the inner `Error('Account created but login
failed')` is replaced by the outer catch (a plain `Error` has no
`response`), so the caller sees the same generic message as for an
account-creation failure that carries no server detail; and when every
profile-creation attempt fails, no error at all is reported - the run
resolves. -/
theorem claim_C2_stage_messages_counterexample :
    (AuthRetry.register (initState none) "a@b.com" "pw" "Ada" "Firm"
      (.ok ()) (.error { message := "Request failed with status code 401" })
      (fun _ => true)).result = .error AuthRetry.registrationFailedMsg ∧
    (AuthRetry.register (initState none) "a@b.com" "pw" "Ada" "Firm"
      (.error { message := "Network Error" })
      (.ok { access_token := "tok", user := { id := "u1", email := "a@b.com" } })
      (fun _ => true)).result = .error AuthRetry.registrationFailedMsg ∧
    AuthRetry.registrationFailedMsg ≠ AuthRetry.accountCreatedMsg ∧
    (AuthRetry.register (initState none) "a@b.com" "pw" "Ada" "Firm"
      (.ok ())
      (.ok { access_token := "tok", user := { id := "u1", email := "a@b.com" } })
      (fun _ => false)).result = .ok () :=
  ⟨rfl, rfl, by decide, rfl⟩

/-- C2 amended: `register` classifies failures as follows.  An
account-creation failure rejects with the server's `detail` or
`message` field when present and otherwise with the generic
registration-failure message; a login-after-registration failure
always rejects with the generic registration-failure message (the
internally thrown distinct error is replaced by the outer catch); a
profile-creation failure is not reported at all - once account
creation and login succeed, `register` resolves. -/
theorem claim_C2_stage_error_reporting
    (s : ClientState) (email password fullName firmName : String)
    (e e2 : JsError) (r : LoginResp) (profileOk : Nat → Bool)
    (hfail : ∀ k, profileOk k = false) :
    (AuthRetry.register s email password fullName firmName (.error e) (.ok r)
        profileOk).result = .error (AuthRetry.outerCatchMsg e) ∧
    (AuthRetry.register s email password fullName firmName (.ok ()) (.error e2)
        profileOk).result = .error AuthRetry.registrationFailedMsg ∧
    (AuthRetry.register s email password fullName firmName (.ok ()) (.ok r)
        profileOk).result = .ok () := by
  refine ⟨rfl, ?_, rfl⟩
  simp [AuthRetry.register, AuthRetry.login, AuthRetry.outerCatchMsg]

/-- C2 amended witness: the theorem instantiated with concrete failing
responses. -/
theorem claim_C2_stage_error_reporting_witness :
    (AuthRetry.register (initState none) "a@b.com" "pw" "Ada" "Firm"
        (.error { message := "Network Error", respDetail := some "exists" })
        (.ok { access_token := "tok", user := { id := "u1", email := "a@b.com" } })
        (fun _ => false)).result
      = .error (AuthRetry.outerCatchMsg
          { message := "Network Error", respDetail := some "exists" }) ∧
    (AuthRetry.register (initState none) "a@b.com" "pw" "Ada" "Firm" (.ok ())
        (.error { message := "Request failed with status code 401" })
        (fun _ => false)).result = .error AuthRetry.registrationFailedMsg ∧
    (AuthRetry.register (initState none) "a@b.com" "pw" "Ada" "Firm" (.ok ())
        (.ok { access_token := "tok", user := { id := "u1", email := "a@b.com" } })
        (fun _ => false)).result = .ok () :=
  claim_C2_stage_error_reporting (initState none) "a@b.com" "pw" "Ada" "Firm"
    { message := "Network Error", respDetail := some "exists" }
    { message := "Request failed with status code 401" }
    { access_token := "tok", user := { id := "u1", email := "a@b.com" } }
    (fun _ => false) (fun k => rfl)

/-- C10: when account creation and login succeed but every
profile-creation attempt fails, the retry budget (one initial call
plus `maxRetries` retries, 2000 ms apart) is exhausted and the failure
is swallowed: `register` still resolves successfully and the caller
remains logged in. -/
theorem claim_C10_profile_failure_swallowed
    (s : ClientState) (email password fullName firmName : String)
    (r : LoginResp) (profileOk : Nat → Bool)
    (h0 : profileOk 0 = false) (h1 : profileOk 1 = false)
    (h2 : profileOk 2 = false) (h3 : profileOk 3 = false) :
    (AuthRetry.register s email password fullName firmName (.ok ()) (.ok r)
        profileOk).result = .ok () ∧
    AuthRetry.profileCallTimes (AuthRetry.register s email password fullName
        firmName (.ok ()) (.ok r) profileOk) = [2000, 4000, 6000, 8000] ∧
    (AuthRetry.register s email password fullName firmName (.ok ()) (.ok r)
        profileOk).finalState.user = some r.user := by
  refine ⟨rfl, ?_, rfl⟩
  simp [AuthRetry.register, AuthRetry.login, AuthRetry.profileCallTimes,
    AuthRetry.createProfile, h0, h1, h2, h3, AuthRetry.maxRetries,
    AuthRetry.retryDelay]

/-- C10 witness: the theorem instantiated with profile calls that
always fail. -/
theorem claim_C10_profile_failure_swallowed_witness :
    (AuthRetry.register (initState none) "a@b.com" "secret" "Ada" "Firm"
        (.ok ()) (.ok { access_token := "tok123"
                        user := { id := "u1", email := "a@b.com" } })
        (fun _ => false)).result = .ok () ∧
    AuthRetry.profileCallTimes (AuthRetry.register (initState none) "a@b.com"
        "secret" "Ada" "Firm" (.ok ())
        (.ok { access_token := "tok123"
               user := { id := "u1", email := "a@b.com" } })
        (fun _ => false)) = [2000, 4000, 6000, 8000] ∧
    (AuthRetry.register (initState none) "a@b.com" "secret" "Ada" "Firm"
        (.ok ()) (.ok { access_token := "tok123"
                        user := { id := "u1", email := "a@b.com" } })
        (fun _ => false)).finalState.user
      = some { id := "u1", email := "a@b.com" } :=
  claim_C10_profile_failure_swallowed (initState none) "a@b.com" "secret"
    "Ada" "Firm"
    { access_token := "tok123", user := { id := "u1", email := "a@b.com" } }
    (fun _ => false) rfl rfl rfl rfl

/-- C3: evaluation of the polling state machine at the failing input.
For a report whose successive fetches return `processing, processing,
completed, completed`, the fetch log is `[0, 0, 5, 10]`: the second
fetch is issued 0 time units after the first (the `setPollingInterval`
in the effect body re-runs the effect, whose body fetches immediately),
violating the minimum 5-unit spacing; and a fetch is issued at time 10
even though the fetch at time 5 already returned `completed` (the
completing response arrived in an interval-callback closure whose
captured `pollingInterval` is `null`, so the `else if (pollingInterval)`
clear never fires) - the timer even stays scheduled, for time 15.  This
contradicts the code's own comments (poll every 5 seconds; stop polling
once no longer processing). -/
theorem claim_C3_polling_at_failing_input :
    (ReportView.runView [.status "processing", .status "processing",
      .status "completed", .status "completed"] 10).1.fetchLog
      = [0, 0, 5, 10] ∧
    (ReportView.runView [.status "processing", .status "processing",
      .status "completed", .status "completed"] 10).1.live.map
        (fun iv => iv.next) = [15] :=
  ⟨rfl, rfl⟩

/-- C4: unmounting the report-detail view runs the effect cleanup,
which cancels the scheduled polling timer, so however long the clock
keeps running afterwards, no further fetch is issued: the fetch log
never grows past its value at unmount. -/
theorem claim_C4_no_fetch_after_unmount (rs : List ReportView.FetchResp)
    (horizon t0 n : Nat) :
    (ReportView.runSteps t0 n (ReportView.unmountView
        (ReportView.runView rs horizon).1,
      (ReportView.runView rs horizon).2)).1.fetchLog
      = (ReportView.runView rs horizon).1.fetchLog := by
  have hinv : ReportView.Inv (ReportView.runView rs horizon).1 :=
    ReportView.runView_inv rs horizon
  have hnil := ReportView.unmountView_live _ hinv
  rw [ReportView.runSteps_live_nil t0 n _ _ hnil,
    ReportView.unmountView_fetchLog]

/-- C9: within one invocation of the upload handler on `n` accepted
files, uploads are sequential: for files `i < j`, entry `i` reaches its
terminal `success` or `error` state (trace position `3 * i + 2`)
strictly before the upload call for file `j` is issued, and that call
occurs exactly once, at trace position `3 * j + 1`. -/
theorem claim_C9_sequential_uploads (ok : Nat → Bool) (n i j k : Nat)
    (hij : i < j) (hj : j < n) :
    (DocumentUpload.handleUpload ok n)[3 * i + 2]?
      = some (DocumentUpload.terminalEvent ok i) ∧
    (DocumentUpload.terminalEvent ok i = .entrySuccess i ∨
      DocumentUpload.terminalEvent ok i = .entryError i) ∧
    (DocumentUpload.handleUpload ok n)[3 * j + 1]?
      = some (.uploadCall j) ∧
    ((DocumentUpload.handleUpload ok n)[k]? = some (.uploadCall j) →
      k = 3 * j + 1) ∧
    3 * i + 2 < 3 * j + 1 := by
  refine ⟨?_, ?_, ?_, ?_, by omega⟩
  · rw [DocumentUpload.handleUpload_get ok n i 2 (by omega) (by omega)]
    rfl
  · rcases hok : ok i with _ | _ <;>
      simp [DocumentUpload.terminalEvent, hok]
  · rw [DocumentUpload.handleUpload_get ok n j 1 hj (by omega)]
    rfl
  · exact DocumentUpload.handleUpload_uploadCall_unique ok n j k

/-- C9 witness: the theorem instantiated for three files of which the
middle upload fails. -/
theorem claim_C9_sequential_uploads_witness :
    (DocumentUpload.handleUpload (fun k => k != 1) 3)[3 * 0 + 2]?
      = some (DocumentUpload.terminalEvent (fun k => k != 1) 0) ∧
    (DocumentUpload.terminalEvent (fun k => k != 1) 0 = .entrySuccess 0 ∨
      DocumentUpload.terminalEvent (fun k => k != 1) 0 = .entryError 0) ∧
    (DocumentUpload.handleUpload (fun k => k != 1) 3)[3 * 2 + 1]?
      = some (.uploadCall 2) ∧
    ((DocumentUpload.handleUpload (fun k => k != 1) 3)[7]?
      = some (.uploadCall 2) → 7 = 3 * 2 + 1) ∧
    3 * 0 + 2 < 3 * 2 + 1 :=
  claim_C9_sequential_uploads (fun k => k != 1) 3 0 2 7 (by decide) (by decide)

/-- C5 amended witness: the theorem instantiated at the state reached
by a successful login storing the token `tok123`. -/
theorem claim_C5_storage_read_per_call_with_cached_header_witness :
    ((AuthRetry.login (initState none) "a@b.com" "secret"
        (.ok { access_token := "tok123"
               user := { id := "u1", email := "a@b.com" } })).1.storage
        = some "tok123" →
      requestAuthorization (AuthRetry.login (initState none) "a@b.com" "secret"
        (.ok { access_token := "tok123"
               user := { id := "u1", email := "a@b.com" } })).1
        = some ("Bearer " ++ "tok123")) ∧
    ((AuthRetry.login (initState none) "a@b.com" "secret"
        (.ok { access_token := "tok123"
               user := { id := "u1", email := "a@b.com" } })).1.defaultsAuth
        = none ∨
      ∃ u, (AuthRetry.login (initState none) "a@b.com" "secret"
        (.ok { access_token := "tok123"
               user := { id := "u1", email := "a@b.com" } })).1.storage
          = some u ∧
        (AuthRetry.login (initState none) "a@b.com" "secret"
        (.ok { access_token := "tok123"
               user := { id := "u1", email := "a@b.com" } })).1.defaultsAuth
          = some ("Bearer " ++ u)) :=
  claim_C5_storage_read_per_call_with_cached_header _ "tok123"
    (Reachable.loginStep "a@b.com" "secret" _ (Reachable.init none))
